import Mathlib

/-!
Verification of `simulation.py` (Brian2STDPMNIST).

Shallow embedding, over exact rationals, of the configuration resolution,
path construction, stimulus construction and periodic-operation logic of
`simulation.py`, together with proofs of the spec's testable properties.
The first half of the file holds the definitions translated from the
source; the second half holds the lemmas and theorems about them.
-/

set_option maxHeartbeats 1000000

namespace Brian2STDPMNIST

/-! ## Weight normalization (`normalize_weights`, simulation.py lines 556-574)

A connection's weight vector `conn.w` is flat, row-major over
(source, target); entry `(i, j)` sits at flat index `i * t + j`.
-/

/-- Sum of column `j` of the flat row-major vector `w` viewed as an `s × t`
matrix: `connweights.sum(axis=0)`. -/
def colSum (w : List ℚ) (s t j : ℕ) : ℚ :=
  ∑ i ∈ Finset.range s, w.getD (i * t + j) 0

/-- The multiplicative factor applied to column `j`:
`colFactors = np.ones_like(colSums); colFactors[ok] = total_weight / colSums[ok]`
with `ok = colSums > 0`. -/
def colFactor (total : ℚ) (w : List ℚ) (s t j : ℕ) : ℚ :=
  if 0 < colSum w s t j then total / colSum w s t j else 1

/-- The body of `normalize_weights` for one connection:
`connweights *= colFactors; conn.w = connweights.flatten()`.
Flat index `k` lies in column `k % t`. -/
def normalizeW (total : ℚ) (s t : ℕ) (w : List ℚ) : List ℚ :=
  (List.range (s * t)).map (fun k => w.getD k 0 * colFactor total w s t (k % t))

/-- A synaptic connection as the normalization step sees it:
its name, `len(conn.source)`, `len(conn.target)` and flat weight vector. -/
structure Conn where
  name : String
  source : ℕ
  target : ℕ
  w : List ℚ
  deriving Repr, DecidableEq

instance : Inhabited Conn := ⟨⟨"", 0, 0, []⟩⟩

/-- Loop of `normalize_weights` over all connections: it rescales only those
whose name is in `stdp_conn_names`; the rest are untouched. -/
def normalize_weights (stdp_conn_names : List String) (total_weight : String → ℚ)
    (conns : List Conn) : List Conn :=
  conns.map fun c =>
    if c.name ∈ stdp_conn_names then
      { c with w := normalizeW (total_weight c.name) c.source c.target c.w }
    else c

/-! ## Output paths (`main` lines 137-152, `simulation` lines 243-261,
`save_connections` lines 81-88, `save_theta` lines 97-103)

`main` computes `outputpath = os.path.join(output, runname)` (log and store
live there), but `simulation` computes `runpath = os.path.join("runs", runname)`
and puts `weights/` under *that*, ignoring the `--output` flag.
-/

/-- Python `b.startswith("/")`, on the character list. -/
def startsWithSlash (s : String) : Bool := s.data.head? = some '/'

/-- Python `a.endswith("/")`, on the character list. -/
def endsWithSlash (s : String) : Bool := s.data.getLast? = some '/'

/-- POSIX `os.path.join(a, b)`: `b` if `b` is absolute; `a ++ b` if `a` is
empty or ends with the separator; else `a ++ "/" ++ b`. -/
def pyJoin (a b : String) : String :=
  if startsWithSlash b = true then b
  else if a = "" ∨ endsWithSlash a = true then a ++ b
  else a ++ "/" ++ b

/-- Run output directory of `main`:
`outputpath = os.path.join(kwargs["output"], kwargs["runname"])`. -/
def outputpath (output runname : String) : String := pyJoin output runname

/-- Run path used by `simulation` (line 247):
`runpath = os.path.join("runs", runname)`. -/
def runpath (runname : String) : String := pyJoin "runs" runname

/-- Weight directory (line 248):
`config.weight_path = os.path.join(runpath, "weights/")`. -/
def weight_path (runname : String) : String := pyJoin (runpath runname) "weights/"

/-- Iteration suffix digits: decimal digits of `n` zero-padded to width 6,
as produced by the 06d format of the iteration number. -/
def pad6 (n : ℕ) : String := ⟨List.replicate (6 - (toString n).length) '0'⟩ ++ toString n

/-- The file path (before the `.npy` extension added by the array writer) that
`save_connections` writes for connection `connName`. -/
def save_connections_filename (runname connName : String) (iteration : Option ℕ) : String :=
  match iteration with
  | none => pyJoin (weight_path runname) connName
  | some it => pyJoin (weight_path runname) connName ++ "-" ++ pad6 it

/-- The file path (before `.npy`) that `save_theta` writes for population
`pop` (its argument is the population name, the file is `theta_<pop>`). -/
def save_theta_filename (runname pop : String) (iteration : Option ℕ) : String :=
  match iteration with
  | none => pyJoin (weight_path runname) ("theta_" ++ pop)
  | some it => pyJoin (weight_path runname) ("theta_" ++ pop) ++ "-" ++ pad6 it

/-- Containment of `file` inside directory `dir`: `dir ++ "/"` is a prefix of
`file` (character-wise). -/
def insideDir (dir file : String) : Prop := (dir ++ "/").data <+: file.data

instance (dir file : String) : Decidable (insideDir dir file) :=
  inferInstanceAs (Decidable ((dir ++ "/").data <+: file.data))

/-! ## Mode-dependent defaults (simulation.py lines 208-230) -/

/-- Configuration fields resolved by the mode-dependent block at the top of
`simulation`. `num_epochs` is a Python float (an exact rational here); the
interval/window parameters are ints. -/
structure ResolvedDefaults where
  random_weights : Bool
  use_premade_weights : Bool
  ee_STDP_on : Bool
  num_epochs : ℚ
  progress_interval : ℤ
  progress_assignments_window : ℤ
  progress_accuracy_window : ℤ
  deriving Repr, DecidableEq

/-- Resolution of mode-dependent defaults: the `if test_mode: ... else: ...`
block. A `none` argument is a parameter left as Python `None`. -/
def resolve_mode_defaults (test_mode resume use_premade_weights : Bool)
    (num_epochs : Option ℚ)
    (progress_interval progress_assignments_window progress_accuracy_window :
      Option ℤ) : ResolvedDefaults :=
  if test_mode then
    { random_weights := false
      use_premade_weights := true
      ee_STDP_on := false
      num_epochs := num_epochs.getD 1
      progress_interval := progress_interval.getD 1000
      progress_assignments_window := progress_assignments_window.getD 0
      progress_accuracy_window := progress_accuracy_window.getD 1000000 }
  else
    { random_weights := !resume
      use_premade_weights := use_premade_weights
      ee_STDP_on := true
      num_epochs := num_epochs.getD 3
      progress_interval := progress_interval.getD 1000
      progress_assignments_window := progress_assignments_window.getD 1000
      progress_accuracy_window := progress_accuracy_window.getD 1000 }

/-! ## Overwrite safety (`main`, simulation.py lines 137-152) -/

/-- Python `os.makedirs(path, exist_ok=...)` on the set of existing
directories: raises `FileExistsError` when the directory exists and
`exist_ok` is false, otherwise succeeds (creating the directory if needed)
and leaves every existing directory untouched. -/
def makedirs (fs : List String) (path : String) (exist_ok : Bool) :
    Except Unit (List String) :=
  if path ∈ fs then
    if exist_ok then .ok fs else .error ()
  else .ok (path :: fs)

/-- Outcome of the directory-creation step of `main`: either the process
exits with a code, or it proceeds; either way it carries the resulting set
of directories. -/
inductive MainDirResult where
  | exited (code : ℕ) (fs : List String)
  | proceeded (fs : List String)
  deriving Repr, DecidableEq

/-- Directory-creation step of `main` (lines 143-152):
`os.makedirs(outputpath, exist_ok=(clobber or resume or test_mode))` inside a
`try`, exiting with code 8 on `FileExistsError` before anything is written. -/
def main_makedirs (fs : List String) (output runname : String)
    (clobber resume test_mode : Bool) : MainDirResult :=
  match makedirs fs (outputpath output runname) (clobber || resume || test_mode) with
  | .ok fs' => .proceeded fs'
  | .error _ => .exited 8 fs

/-! ## The dc15 option bundle (simulation.py lines 949-959) -/

/-- Parsed argparse namespace of the entry point, one field per
`add_argument`. Optional floats are exact rationals; `custom_namespace` keeps
its raw text form. -/
structure Args where
  test_mode : Bool
  runname : Option String
  output : String
  data : String
  debug : Bool
  clobber : Bool
  num_epochs : Option ℚ
  progress_interval : Option ℤ
  assignments_window : Option ℤ
  accuracy_window : Option ℤ
  record_spikes : Bool
  monitoring : Bool
  permute_data : Bool
  size : ℤ
  resume : Bool
  stdp_rule : String
  custom_namespace : String
  total_input_weight : Option ℚ
  tc_theta : Option ℚ
  timer : Option ℚ
  use_premade_weights : Bool
  supervised : Bool
  feedback : Bool
  profile : Bool
  clock : Option ℚ
  dc15 : Bool
  deriving Repr, DecidableEq

/-- Application of the `--dc15` bundle (lines 949-959): when `args.dc15` is
set, `setattr` overwrites exactly the six fields of `dc15_options`. -/
def apply_dc15 (a : Args) : Args :=
  if a.dc15 then
    { a with
      permute_data := false
      stdp_rule := "original"
      timer := some 10
      tc_theta := some 10000000
      total_input_weight := some 78
      use_premade_weights := true }
  else a

/-! ## Fractional-epoch truncation (simulation.py lines 273-279) -/

/-- Python `int(q)` applied to a (float) value `q`: truncation toward zero;
for the nonnegative values arising here this is the floor. -/
def pyInt (q : ℚ) : ℤ := q.num / q.den

/-- Python `int(np.ceil(q))` for the exact value `q`. -/
def pyCeilInt (q : ℚ) : ℤ := ⌈q⌉

/-- Line 273: `num_examples = int(len(data["y"]) * num_epochs)`. -/
def num_examples (L : ℕ) (num_epochs : ℚ) : ℤ := pyInt (L * num_epochs)

/-- Lines 276-279: when `num_epochs < 1` the dataset is cut to its first
`int(np.ceil(n_data * num_epochs))` examples, otherwise kept whole. -/
def truncate_data (xs : List ℕ) (num_epochs : ℚ) : List ℕ :=
  if num_epochs < 1 then xs.take (pyCeilInt (xs.length * num_epochs)).toNat
  else xs

/-! ## Threshold-checkpoint size check (simulation.py lines 395-405) -/

/-- Message of the ValueError raised on a theta size mismatch (the f-string
at lines 398-402). -/
def thetaSizeErrMsg (subpop_e : String) (expected found : ℕ) : String :=
  "Requested size of neuron population " ++ subpop_e ++ " (" ++ toString expected
    ++ ") does not match size of saved data (" ++ toString found ++ ")"

/-- Theta initialisation for one excitatory subpopulation (lines 395-405):
with `random_weights` false the saved vector is loaded and must match the
configured size `n`, else a `ValueError` aborts; with `random_weights` true
an optional scalar `theta_init` entry fills the vector, and otherwise the
factory-initialised `theta0` is kept. -/
def set_population_theta (random_weights : Bool) (theta_saved : List ℚ)
    (n : ℕ) (theta_init : Option ℚ) (subpop_e : String) (theta0 : List ℚ) :
    Except String (List ℚ) :=
  if !random_weights then
    if theta_saved.length ≠ n then
      .error (thetaSizeErrMsg subpop_e n theta_saved.length)
    else .ok theta_saved
  else
    match theta_init with
    | some v => .ok (List.replicate n v)
    | none => .ok theta0

/-! ## Missing-weight-file fallback (simulation.py lines 427-439, 532-543,
`get_initial_weights` lines 106-134) -/

/-- Logging level of an emitted log line. -/
inductive LogLevel where
  | debug
  | info
  deriving Repr, DecidableEq

/-- Info message logged when a requested premade weight file is absent (the
f-string at lines 432-435). -/
def missingWeightsMsg (random_weights : Bool) (connName : String) : String :=
  "Requested premade " ++ (if random_weights then "random" else "")
    ++ " weights, but none found for " ++ connName

/-- Weight selection for one connection (the try/except at lines 427-439):
`file` is the premade file's matrix when the file exists, `none` when the
load raises `FileNotFoundError`. A missing file is never fatal: the
deterministic matrix from the initial-weight-matrix set (built by
`get_initial_weights` with fixed seed 9728364) is substituted and the
condition logged at info level. Returns the chosen flat matrix and the log
lines emitted. -/
def select_weight_matrix (use_premade_weights random_weights : Bool)
    (connName : String) (file : Option (List ℚ))
    (initial_weight_matrix : List ℚ) : List ℚ × List (LogLevel × String) :=
  match use_premade_weights, file with
  | true, some m => (m, [])
  | true, none =>
      (initial_weight_matrix,
        [(LogLevel.info, missingWeightsMsg random_weights connName),
         (LogLevel.info, "Using generated initial weight matrices")])
  | false, _ =>
      (initial_weight_matrix,
        [(LogLevel.info, "Using generated initial weight matrices")])

/-! ## Pixel stimulus construction (simulation.py lines 460-473 and 497-503)

Times are in seconds, exact rationals: presentation 0.35 s, rest 0.15 s,
input bin 50 ms, `input_intensity = 2.0`.
-/

def single_example_time : ℚ := 35 / 100

def resting_time : ℚ := 15 / 100

def input_dt : ℚ := 5 / 100

def input_intensity : ℚ := 2

/-- Line 461: `n_dt_example = int(round(single_example_time / input_dt))`. -/
def n_dt_example : ℕ := (round (single_example_time / input_dt)).toNat

/-- Line 462: `n_dt_rest = int(round(resting_time / input_dt))`. -/
def n_dt_rest : ℕ := (round (resting_time / input_dt)).toNat

/-- Line 463: `n_dt_total = int(n_dt_example + n_dt_rest)`. -/
def n_dt_total : ℕ := n_dt_example + n_dt_rest

/-- Line 467-468: `spike_rates = data["x"][j].reshape(...) / 8` then
`spike_rates *= input_intensity`. -/
def spike_rates (px : List ℚ) : List ℚ := px.map (fun p => p / 8 * input_intensity)

/-- Rows of the rate array contributed by example `j` (lines 464-470): the
array is zero-initialised and rows `start .. start + n_dt_example` are set to
the scaled pixel rates, so each example contributes `n_dt_example`
presentation rows followed by `n_dt_rest` all-zero rest rows. -/
def example_rows (px : List ℚ) : List (List ℚ) :=
  List.replicate n_dt_example (spike_rates px)
    ++ List.replicate n_dt_rest (px.map fun _ => 0)

/-- The full stimulus rate array, one row per 50 ms bin, examples in order. -/
def input_rates (pixels : List (List ℚ)) : List (List ℚ) :=
  (pixels.map example_rows).flatten

/-- `TimedArray` lookup (line 472): the value at time `t` for neuron `i` is
row `⌊t / input_dt⌋`. -/
def stimulus_X (pixels : List (List ℚ)) (t : ℚ) (i : ℕ) : ℚ :=
  ((input_rates pixels).getD (⌊t / input_dt⌋).toNat []).getD i 0

/-- Line 473: `total_data_time = n_data * n_dt_total * input_dt`. -/
def total_data_time (n_data : ℕ) : ℚ := n_data * n_dt_total * input_dt

/-- Python float modulo `t % T` for a positive modulus `T`. -/
def ratMod (t T : ℚ) : ℚ := t - T * ⌊t / T⌋

/-- Rates actually read by the Poisson input population (line 502):
`stimulus_X(t % total_data_time, i)`. -/
def poisson_rates (pixels : List (List ℚ)) (t : ℚ) (i : ℕ) : ℚ :=
  stimulus_X pixels (ratMod t (total_data_time pixels.length)) i

/-! ## Progress-pass connection snapshots (simulation.py lines 701-750) -/

/-- State touched by the snapshot section of `progress`: the rows appended
to the `connections/<name>` store tables and the files written (weight
plots and, when monitoring, pickled monitor dumps). -/
structure SnapshotState where
  connRows : List (String × ℕ)
  files : List String
  deriving Repr, DecidableEq

/-- Snapshot section of `progress` (lines 701-750), guarded by
`if not test_mode or metadata.nseen == 0`: appends one row per connection in
`config.save_conns`, renders one weight plot per connection in
`config.plot_conns`, and, when monitoring is on, dumps one pickle per spike
monitor and per state monitor. -/
def progress_snapshot (test_mode monitoring : Bool) (nseen : ℕ)
    (save_conns plot_conns spike_monitors state_monitors : List String)
    (st : SnapshotState) : SnapshotState :=
  if !test_mode || nseen == 0 then
    let st1 : SnapshotState :=
      { st with connRows := st.connRows
          ++ save_conns.map (fun c => ("connections/" ++ c, nseen)) }
    let st2 : SnapshotState :=
      { st1 with files := st1.files
          ++ plot_conns.map (fun c => "weights-" ++ c ++ ".pdf") }
    if monitoring then
      { st2 with files := st2.files
          ++ spike_monitors.map (fun m => "saved-spikemonitor-" ++ m ++ ".pickle")
          ++ state_monitors.map (fun m => "saved-statemonitor-" ++ m ++ ".pickle") }
    else st2
  else st

/-! ## Lemmas and theorems -/

lemma getD_nonneg (w : List ℚ) (h : ∀ x ∈ w, 0 ≤ x) (k : ℕ) : 0 ≤ w.getD k 0 := by
  by_cases hk : k < w.length
  · rw [List.getD_eq_getElem w 0 hk]
    exact h _ (List.getElem_mem hk)
  · rw [List.getD_eq_default w 0 (Nat.le_of_not_lt hk)]

lemma colSum_nonneg (w : List ℚ) (h : ∀ x ∈ w, 0 ≤ x) (s t j : ℕ) :
    0 ≤ colSum w s t j :=
  Finset.sum_nonneg fun i _ => getD_nonneg w h (i * t + j)

lemma normalizeW_getD (total : ℚ) (s t : ℕ) (w : List ℚ) (i j : ℕ)
    (hi : i < s) (hj : j < t) :
    (normalizeW total s t w).getD (i * t + j) 0
      = w.getD (i * t + j) 0 * colFactor total w s t j := by
  have hk : i * t + j < s * t := by
    calc i * t + j < i * t + t := by omega
    _ = (i + 1) * t := by ring
    _ ≤ s * t := Nat.mul_le_mul_right t hi
  have hmod : (i * t + j) % t = j := by
    rw [Nat.mul_comm i t, Nat.mul_add_mod, Nat.mod_eq_of_lt hj]
  unfold normalizeW
  rw [List.getD_eq_getElem _ _ (by simpa using hk)]
  simp [hmod]

lemma colSum_normalizeW (total : ℚ) (s t : ℕ) (w : List ℚ) (j : ℕ) (hj : j < t) :
    colSum (normalizeW total s t w) s t j = colSum w s t j * colFactor total w s t j := by
  unfold colSum
  rw [Finset.sum_mul]
  exact Finset.sum_congr rfl fun i hi =>
    normalizeW_getD total s t w i j (Finset.mem_range.mp hi) hj

/-- Column-level facts for one STDP-bearing connection. -/
lemma normalizeW_spec (total : ℚ) (s t : ℕ) (w : List ℚ)
    (hnn : ∀ x ∈ w, 0 ≤ x) (j : ℕ) (hj : j < t) :
    (colSum w s t j ≠ 0 → colSum (normalizeW total s t w) s t j = total) ∧
    (colSum w s t j = 0 → ∀ i < s,
      w.getD (i * t + j) 0 = 0 ∧ (normalizeW total s t w).getD (i * t + j) 0 = 0) := by
  constructor
  · intro hne
    have hpos : 0 < colSum w s t j := lt_of_le_of_ne (colSum_nonneg w hnn s t j) (Ne.symm hne)
    rw [colSum_normalizeW total s t w j hj]
    rw [colFactor, if_pos hpos]
    field_simp
  · intro hz i hi
    have hcol : ∀ i ∈ Finset.range s, w.getD (i * t + j) 0 = 0 := by
      have := (Finset.sum_eq_zero_iff_of_nonneg
        (fun i _ => getD_nonneg w hnn (i * t + j))).mp hz
      exact this
    have hw0 : w.getD (i * t + j) 0 = 0 := hcol i (Finset.mem_range.mpr hi)
    refine ⟨hw0, ?_⟩
    rw [normalizeW_getD total s t w i j hi hj, hw0, zero_mul]

lemma getD_map_lt {α β : Type} [Inhabited α] [Inhabited β] (f : α → β) (l : List α)
    (k : ℕ) (hk : k < l.length) : (l.map f).getD k default = f (l.getD k default) := by
  rw [List.getD_eq_getElem _ _ (by simpa using hk), List.getD_eq_getElem _ _ hk,
    List.getElem_map]

/-- C1: whenever `normalize_weights` runs, every connection whose name is not
in `stdp_conn_names` is left unchanged; every STDP-bearing connection has its
flat weight vector replaced by the column-rescaled one; and for any
(nonnegative) weight vector, every column with nonzero sum is rescaled to sum
exactly to the configured total input weight, while every column with zero sum
was all-zero and remains all-zero. -/
theorem C1_normalize_weights (stdp : List String) (tw : String → ℚ) (conns : List Conn) :
    (normalize_weights stdp tw conns).length = conns.length
    ∧ (∀ k, k < conns.length →
        ((conns.getD k default).name ∉ stdp →
          (normalize_weights stdp tw conns).getD k default = conns.getD k default)
        ∧ ((conns.getD k default).name ∈ stdp →
          (normalize_weights stdp tw conns).getD k default
            = { conns.getD k default with
                w := normalizeW (tw (conns.getD k default).name)
                  (conns.getD k default).source (conns.getD k default).target
                  (conns.getD k default).w }))
    ∧ (∀ (total : ℚ) (s t : ℕ) (w : List ℚ), (∀ x ∈ w, 0 ≤ x) → ∀ j < t,
        (colSum w s t j ≠ 0 → colSum (normalizeW total s t w) s t j = total)
        ∧ (colSum w s t j = 0 → ∀ i < s,
            w.getD (i * t + j) 0 = 0 ∧ (normalizeW total s t w).getD (i * t + j) 0 = 0)) := by
  refine ⟨by simp [normalize_weights], fun k hk => ?_,
    fun total s t w hnn j hj => normalizeW_spec total s t w hnn j hj⟩
  have hmap := getD_map_lt
    (fun c : Conn => if c.name ∈ stdp then
      { c with w := normalizeW (tw c.name) c.source c.target c.w } else c)
    conns k hk
  constructor
  · intro hni
    rw [normalize_weights, hmap]
    simp only [if_neg hni]
  · intro hin
    rw [normalize_weights, hmap]
    simp only [if_pos hin]

/-- Witness for C1 at a concrete input: two connections, only `XeAe` is
STDP-bearing; its first column (sum `1`) is rescaled to sum `10`, and the
non-STDP connection `AeAi` is untouched. -/
theorem C1_normalize_weights_witness :
    colSum ((normalize_weights ["XeAe"] (fun _ => (10 : ℚ))
        [⟨"XeAe", 2, 2, [1, 1, 0, 3]⟩, ⟨"AeAi", 1, 1, [5]⟩]).getD 0 default).w 2 2 0 = 10
    ∧ (normalize_weights ["XeAe"] (fun _ => (10 : ℚ))
        [⟨"XeAe", 2, 2, [1, 1, 0, 3]⟩, ⟨"AeAi", 1, 1, [5]⟩]).getD 1 default
      = ⟨"AeAi", 1, 1, [5]⟩ := by
  have h := C1_normalize_weights ["XeAe"] (fun _ => (10 : ℚ))
      [⟨"XeAe", 2, 2, [1, 1, 0, 3]⟩, ⟨"AeAi", 1, 1, [5]⟩]
  constructor
  · have h0 := (h.2.1 0 (by decide)).2 (by decide)
    rw [h0]
    exact (h.2.2 10 2 2 [1, 1, 0, 3] (by norm_num) 0 (by decide)).1
      (by simp [colSum, Finset.sum_range_succ])
  · exact (h.2.1 1 (by decide)).1 (by decide)

lemma data_ne_nil {s : String} (h : s ≠ "") : s.data ≠ [] :=
  fun hd => h (String.ext hd)

lemma append_ne_empty_left (a b : String) (ha : a ≠ "") : a ++ b ≠ "" := by
  intro h
  apply data_ne_nil ha
  have hd := congrArg String.data h
  rw [String.data_append] at hd
  exact (List.append_eq_nil.mp hd).1

lemma endsWithSlash_append (a b : String) (hb : b ≠ "") :
    endsWithSlash (a ++ b) = endsWithSlash b := by
  unfold endsWithSlash
  rw [String.data_append, List.getLast?_append_of_ne_nil _ (data_ne_nil hb)]

lemma startsWithSlash_append (a b : String) (ha : a ≠ "") :
    startsWithSlash (a ++ b) = startsWithSlash a := by
  unfold startsWithSlash
  rw [String.data_append, List.head?_append_of_ne_nil _ (data_ne_nil ha)]

/-- C2 counterexample: with `--output /data/out` and runname `run1`, the run's
output directory is `/data/out/run1`, yet `save_connections` and `save_theta`
write under `runs/run1/weights/`, which is not inside `/data/out/run1`. -/
theorem C2_counterexample :
    outputpath "/data/out" "run1" = "/data/out/run1"
    ∧ save_connections_filename "run1" "XeAe" none = "runs/run1/weights/XeAe"
    ∧ save_connections_filename "run1" "XeAe" (some 3) = "runs/run1/weights/XeAe-000003"
    ∧ save_theta_filename "run1" "A" none = "runs/run1/weights/theta_A"
    ∧ ¬ insideDir (outputpath "/data/out" "run1") (save_connections_filename "run1" "XeAe" none)
    ∧ ¬ insideDir (outputpath "/data/out" "run1") (save_theta_filename "run1" "A" none) := by
  refine ⟨rfl, rfl, ?_, rfl, by decide, by decide⟩
  decide

/-- C2 amended: per-connection weight files `<connName>[-NNNNNN]` (6-digit
zero-padded suffix) and per-population threshold files `theta_<pop>` are
written inside `runs/<runname>/weights/` relative to the working directory —
a path independent of the `--output` flag — not inside `<output>/<runname>/`. -/
theorem C2_weight_file_paths (runname connName pop : String) (it : ℕ)
    (h1 : startsWithSlash runname = false) (h2 : endsWithSlash runname = false)
    (h3 : runname ≠ "") (h4 : startsWithSlash connName = false) :
    save_connections_filename runname connName none
      = "runs/" ++ runname ++ "/weights/" ++ connName
    ∧ save_connections_filename runname connName (some it)
      = "runs/" ++ runname ++ "/weights/" ++ connName ++ "-" ++ pad6 it
    ∧ save_theta_filename runname pop none
      = "runs/" ++ runname ++ "/weights/theta_" ++ pop := by
  have hrun : runpath runname = "runs/" ++ runname := by
    rw [runpath, pyJoin, if_neg (by rw [h1]; exact Bool.false_ne_true),
      if_neg (by decide)]
    rfl
  have hne : ("runs/" ++ runname) ≠ "" :=
    append_ne_empty_left _ _ (by decide)
  have he : endsWithSlash ("runs/" ++ runname) = false := by
    rw [endsWithSlash_append _ _ h3]; exact h2
  have hwp : weight_path runname = "runs/" ++ runname ++ "/weights/" := by
    rw [weight_path, hrun, pyJoin, if_neg (by decide),
      if_neg (by rintro (h | h); exacts [hne h, Bool.false_ne_true (he ▸ h)])]
    rw [String.append_assoc]
    rfl
  have hwpe : endsWithSlash (weight_path runname) = true := by
    rw [hwp, endsWithSlash_append ("runs/" ++ runname) "/weights/" (by decide)]
    decide
  have hjoin : ∀ b : String, startsWithSlash b = false →
      pyJoin (weight_path runname) b = weight_path runname ++ b := by
    intro b hb
    rw [pyJoin, if_neg (by rw [hb]; exact Bool.false_ne_true), if_pos (Or.inr hwpe)]
  have htheta : startsWithSlash ("theta_" ++ pop) = false := by
    rw [startsWithSlash_append _ _ (by decide)]; decide
  refine ⟨?_, ?_, ?_⟩
  · show pyJoin (weight_path runname) connName = _
    rw [hjoin connName h4, hwp]
  · show pyJoin (weight_path runname) connName ++ "-" ++ pad6 it = _
    rw [hjoin connName h4, hwp]
  · show pyJoin (weight_path runname) ("theta_" ++ pop) = _
    rw [hjoin _ htheta, hwp,
      String.append_assoc ("runs/" ++ runname) "/weights/theta_" pop,
      String.append_assoc ("runs/" ++ runname) "/weights/" ("theta_" ++ pop)]
    congr 1

/-- Witness for the amended C2 at a concrete input. -/
theorem C2_weight_file_paths_witness :
    save_connections_filename "run1" "XeAe" (some 42)
      = "runs/" ++ "run1" ++ "/weights/" ++ "XeAe" ++ "-" ++ pad6 42 :=
  (C2_weight_file_paths "run1" "XeAe" "A" 42 (by decide) (by decide) (by decide)
    (by decide)).2.1

/-- C3: with all four optional parameters `None`, test mode resolves to
`use_premade_weights=True`, `ee_STDP_on=False`, 1 epoch, progress interval
1000, assignments window 0, accuracy window 1000000; train mode resolves to
`random_weights = not resume`, `ee_STDP_on=True`, 3 epochs, 1000, 1000, 1000;
and in either mode an explicitly supplied (non-`None`) value is kept. -/
theorem C3_mode_defaults (resume upw : Bool) (ne : Option ℚ)
    (pin paw pac : Option ℤ) :
    resolve_mode_defaults true resume upw none none none none
      = ⟨false, true, false, 1, 1000, 0, 1000000⟩
    ∧ resolve_mode_defaults false resume upw none none none none
      = ⟨!resume, upw, true, 3, 1000, 1000, 1000⟩
    ∧ (∀ (tm : Bool) (x : ℚ), ne = some x →
        (resolve_mode_defaults tm resume upw ne pin paw pac).num_epochs = x)
    ∧ (∀ (tm : Bool) (x : ℤ), pin = some x →
        (resolve_mode_defaults tm resume upw ne pin paw pac).progress_interval = x)
    ∧ (∀ (tm : Bool) (x : ℤ), paw = some x →
        (resolve_mode_defaults tm resume upw ne pin paw
          pac).progress_assignments_window = x)
    ∧ (∀ (tm : Bool) (x : ℤ), pac = some x →
        (resolve_mode_defaults tm resume upw ne pin paw
          pac).progress_accuracy_window = x) := by
  refine ⟨rfl, rfl, ?_, ?_, ?_, ?_⟩ <;>
    (intro tm x hx; cases tm <;> simp [resolve_mode_defaults, hx])

/-- Witness for C3 at a concrete input: an explicit `num_epochs=7/2` is kept
in test mode. -/
theorem C3_mode_defaults_witness :
    (resolve_mode_defaults true false false (some (7 / 2 : ℚ)) none none
      none).num_epochs = 7 / 2 :=
  (C3_mode_defaults false false (some (7 / 2 : ℚ)) none none none).2.2.1 true
    (7 / 2) rfl

/-- C4: when `<output>/<runname>` already exists and none of clobber, resume,
test mode is set, `main` exits with code 8 leaving the file system exactly as
it was; when any of the three flags is set, pre-existence is not an error and
the file system is likewise unchanged. -/
theorem C4_overwrite_safety (fs : List String) (output runname : String)
    (clobber resume test_mode : Bool)
    (hex : outputpath output runname ∈ fs) :
    (clobber = false → resume = false → test_mode = false →
      main_makedirs fs output runname clobber resume test_mode = .exited 8 fs)
    ∧ ((clobber || resume || test_mode) = true →
      main_makedirs fs output runname clobber resume test_mode = .proceeded fs) := by
  constructor
  · intro hc hr ht
    simp [main_makedirs, makedirs, hex, hc, hr, ht]
  · intro hany
    simp [main_makedirs, makedirs, hex, hany]

/-- Witness for C4 at a concrete input: directory `/out/run1` exists; with no
flag the process exits 8 without changes, with `--clobber` it proceeds. -/
theorem C4_overwrite_safety_witness :
    main_makedirs ["/out/run1"] "/out" "run1" false false false
      = .exited 8 ["/out/run1"]
    ∧ main_makedirs ["/out/run1"] "/out" "run1" true false false
      = .proceeded ["/out/run1"] :=
  ⟨(C4_overwrite_safety ["/out/run1"] "/out" "run1" false false false
      (by decide)).1 rfl rfl rfl,
   (C4_overwrite_safety ["/out/run1"] "/out" "run1" true false false
      (by decide)).2 rfl⟩

/-- C5: with `--dc15` on the command line, the effective configuration has
`permute_data=False`, `stdp_rule="original"`, `timer=10.0`, `tc_theta=1.0e7`,
`total_input_weight=78.0`, `use_premade_weights=True`, regardless of the
values parsed for those six fields, and every other field is unaltered. -/
theorem C5_dc15_bundle (a : Args) (h : a.dc15 = true) :
    (apply_dc15 a).permute_data = false
    ∧ (apply_dc15 a).stdp_rule = "original"
    ∧ (apply_dc15 a).timer = some 10
    ∧ (apply_dc15 a).tc_theta = some 10000000
    ∧ (apply_dc15 a).total_input_weight = some 78
    ∧ (apply_dc15 a).use_premade_weights = true
    ∧ (apply_dc15 a).test_mode = a.test_mode
    ∧ (apply_dc15 a).runname = a.runname
    ∧ (apply_dc15 a).output = a.output
    ∧ (apply_dc15 a).data = a.data
    ∧ (apply_dc15 a).debug = a.debug
    ∧ (apply_dc15 a).clobber = a.clobber
    ∧ (apply_dc15 a).num_epochs = a.num_epochs
    ∧ (apply_dc15 a).progress_interval = a.progress_interval
    ∧ (apply_dc15 a).assignments_window = a.assignments_window
    ∧ (apply_dc15 a).accuracy_window = a.accuracy_window
    ∧ (apply_dc15 a).record_spikes = a.record_spikes
    ∧ (apply_dc15 a).monitoring = a.monitoring
    ∧ (apply_dc15 a).size = a.size
    ∧ (apply_dc15 a).resume = a.resume
    ∧ (apply_dc15 a).custom_namespace = a.custom_namespace
    ∧ (apply_dc15 a).supervised = a.supervised
    ∧ (apply_dc15 a).feedback = a.feedback
    ∧ (apply_dc15 a).profile = a.profile
    ∧ (apply_dc15 a).clock = a.clock
    ∧ (apply_dc15 a).dc15 = a.dc15 := by
  simp [apply_dc15, h]

/-- Witness for C5 at a concrete input: contrary earlier-parsed values for
the six bundled fields are overridden while `test_mode` is kept. -/
theorem C5_dc15_bundle_witness :
    (apply_dc15 ⟨true, none, "out", "mnist", true, false, none, none, none,
      none, false, false, true, 400, false, "powerlaw", "ns", some 1, some 2,
      some 3, false, false, false, false, none, true⟩).stdp_rule = "original"
    ∧ (apply_dc15 ⟨true, none, "out", "mnist", true, false, none, none, none,
      none, false, false, true, 400, false, "powerlaw", "ns", some 1, some 2,
      some 3, false, false, false, false, none, true⟩).permute_data = false
    ∧ (apply_dc15 ⟨true, none, "out", "mnist", true, false, none, none, none,
      none, false, false, true, 400, false, "powerlaw", "ns", some 1, some 2,
      some 3, false, false, false, false, none, true⟩).test_mode = true := by
  have h := C5_dc15_bundle ⟨true, none, "out", "mnist", true, false, none,
    none, none, none, false, false, true, 400, false, "powerlaw", "ns",
    some 1, some 2, some 3, false, false, false, false, none, true⟩ rfl
  exact ⟨h.2.1, h.1, h.2.2.2.2.2.2.1⟩

/-- C6: `num_examples = int(L * num_epochs)`; with `num_epochs < 1` the data
used is the prefix of length `ceil(L * num_epochs)` of the dataset, with
`num_epochs >= 1` the dataset is untouched; and at `L = 10000`,
`num_epochs = 0.5`, exactly 5000 examples are used and `num_examples = 5000`. -/
theorem C6_fractional_epochs (e : ℚ) (xs : List ℕ) :
    (1 ≤ e → truncate_data xs e = xs)
    ∧ (e < 1 → truncate_data xs e <+: xs
        ∧ (truncate_data xs e).length = (⌈((xs.length : ℚ) * e)⌉).toNat)
    ∧ (xs.length = 10000 → e = 1 / 2 →
        num_examples xs.length e = 5000 ∧ (truncate_data xs e).length = 5000) := by
  have hkey : e < 1 → truncate_data xs e <+: xs
      ∧ (truncate_data xs e).length = (⌈((xs.length : ℚ) * e)⌉).toNat := by
    intro hlt
    rw [truncate_data, if_pos hlt]
    refine ⟨List.take_prefix _ _, ?_⟩
    rw [List.length_take]
    apply min_eq_left
    have h1 : ((xs.length : ℚ)) * e ≤ (xs.length : ℚ) := by
      nlinarith [Nat.cast_nonneg (α := ℚ) xs.length]
    have h2 : ⌈((xs.length : ℚ) * e)⌉ ≤ (xs.length : ℤ) :=
      calc ⌈((xs.length : ℚ) * e)⌉ ≤ ⌈((xs.length : ℚ))⌉ := Int.ceil_le_ceil h1
        _ = (xs.length : ℤ) := Int.ceil_natCast _
    exact Int.toNat_le.mpr h2
  refine ⟨?_, hkey, ?_⟩
  · intro h1
    rw [truncate_data, if_neg (not_lt.mpr h1)]
  · intro hL he
    have hq : ((xs.length : ℕ) : ℚ) * (1 / 2) = 5000 := by rw [hL]; norm_num
    constructor
    · rw [num_examples, he, hq]
      decide
    · rw [(hkey (by rw [he]; norm_num)).2, he, hq]
      norm_num
      decide

/-- Witness for C6 at a concrete input: a 4-example dataset with half an
epoch keeps the first 2 examples. -/
theorem C6_fractional_epochs_witness :
    truncate_data [3, 1, 4, 1] (1 / 2) <+: [3, 1, 4, 1]
    ∧ (truncate_data [3, 1, 4, 1] (1 / 2)).length
        = (⌈((([3, 1, 4, 1] : List ℕ).length : ℚ) * (1 / 2))⌉).toNat :=
  (C6_fractional_epochs (1 / 2) [3, 1, 4, 1]).2.1 (by norm_num)

/-- C7: with `random_weights` false, a loaded theta vector whose length
differs from the configured excitatory population size aborts with the error
message naming the population, the expected size and the found size (each
occurs in the message); when the lengths match, the loaded vector becomes the
population's theta and the run continues. -/
theorem C7_theta_size_check (saved : List ℚ) (n : ℕ) (ti : Option ℚ)
    (pop : String) (theta0 : List ℚ) :
    (saved.length ≠ n →
      set_population_theta false saved n ti pop theta0
        = .error (thetaSizeErrMsg pop n saved.length)
      ∧ pop.data <:+: (thetaSizeErrMsg pop n saved.length).data
      ∧ (toString n).data <:+: (thetaSizeErrMsg pop n saved.length).data
      ∧ (toString saved.length).data <:+: (thetaSizeErrMsg pop n saved.length).data)
    ∧ (saved.length = n →
      set_population_theta false saved n ti pop theta0 = .ok saved) := by
  constructor
  · intro hne
    refine ⟨?_, ?_, ?_, ?_⟩
    · simp [set_population_theta, hne]
    · exact ⟨"Requested size of neuron population ".data,
        (" (" ++ toString n ++ ") does not match size of saved data ("
          ++ toString saved.length ++ ")").data,
        by simp [thetaSizeErrMsg, String.data_append, List.append_assoc]⟩
    · exact ⟨("Requested size of neuron population " ++ pop ++ " (").data,
        (") does not match size of saved data (" ++ toString saved.length
          ++ ")").data,
        by simp [thetaSizeErrMsg, String.data_append, List.append_assoc]⟩
    · exact ⟨("Requested size of neuron population " ++ pop ++ " ("
          ++ toString n ++ ") does not match size of saved data (").data,
        ")".data,
        by simp [thetaSizeErrMsg, String.data_append, List.append_assoc]⟩
  · intro heq
    simp [set_population_theta, heq]

/-- Witness for C7 at a concrete input: a saved vector of length 3 against a
configured size of 2 yields the descriptive error; length 2 is accepted. -/
theorem C7_theta_size_check_witness :
    set_population_theta false [1, 2, 3] 2 none "Ae" []
      = .error (thetaSizeErrMsg "Ae" 2 3)
    ∧ set_population_theta false [1, 2] 2 none "Ae" [] = .ok [1, 2] :=
  ⟨((C7_theta_size_check [1, 2, 3] 2 none "Ae" []).1 (by decide)).1,
   (C7_theta_size_check [1, 2] 2 none "Ae" []).2 (by decide)⟩

/-- C8: when premade weights are requested but the file is missing, the
fallback matrix from the initial-weight-matrix set is used, an info-level
message naming the connection is logged, and the run continues (the selection
is total — no error outcome exists); when the file exists its matrix is used
unchanged. -/
theorem C8_missing_weight_fallback (random_weights : Bool) (connName : String)
    (file : Option (List ℚ)) (initial : List ℚ) :
    (file = none →
      select_weight_matrix true random_weights connName file initial
        = (initial,
            [(LogLevel.info, missingWeightsMsg random_weights connName),
             (LogLevel.info, "Using generated initial weight matrices")])
      ∧ connName.data <:+ (missingWeightsMsg random_weights connName).data)
    ∧ (∀ m, file = some m →
      select_weight_matrix true random_weights connName file initial = (m, [])) := by
  constructor
  · intro h
    subst h
    refine ⟨rfl, ⟨("Requested premade "
        ++ (if random_weights then "random" else "")
        ++ " weights, but none found for ").data, ?_⟩⟩
    simp [missingWeightsMsg, String.data_append, List.append_assoc]
  · intro m h
    subst h
    rfl

/-- Witness for C8 at a concrete input: connection `XeAe` with a missing
file falls back to the deterministic matrix and logs at info level. -/
theorem C8_missing_weight_fallback_witness :
    select_weight_matrix true false "XeAe" none [1, 0, 0, 1]
      = ([1, 0, 0, 1],
          [(LogLevel.info, missingWeightsMsg false "XeAe"),
           (LogLevel.info, "Using generated initial weight matrices")]) :=
  ((C8_missing_weight_fallback false "XeAe" none [1, 0, 0, 1]).1 rfl).1

lemma n_dt_example_eq : n_dt_example = 7 := by
  norm_num [n_dt_example, single_example_time, input_dt]
  decide

lemma n_dt_rest_eq : n_dt_rest = 3 := by
  norm_num [n_dt_rest, resting_time, input_dt]
  decide

lemma n_dt_total_eq : n_dt_total = 10 := by
  norm_num [n_dt_total, n_dt_example_eq, n_dt_rest_eq]

lemma example_rows_length (px : List ℚ) : (example_rows px).length = n_dt_total := by
  simp [example_rows, n_dt_total]

lemma getD_replicate {β : Type} (n k : ℕ) (x d : β) (h : k < n) :
    (List.replicate n x).getD k d = x := by
  rw [List.getD_eq_getElem _ _ (by simpa using h)]
  simp

lemma flatten_map_getD (f : List ℚ → List (List ℚ)) (c : ℕ)
    (hf : ∀ a, (f a).length = c) (l : List (List ℚ)) (j k : ℕ)
    (hj : j < l.length) (hk : k < c) :
    ((l.map f).flatten).getD (j * c + k) [] = (f (l.getD j [])).getD k [] := by
  induction l generalizing j with
  | nil => simp at hj
  | cons a tl ih =>
    cases j with
    | zero =>
      simp only [List.map_cons, List.flatten_cons, Nat.zero_mul, Nat.zero_add]
      rw [List.getD_append _ _ _ _ (by rw [hf]; exact hk)]
      rfl
    | succ j =>
      have harith : (j + 1) * c + k = (f a).length + (j * c + k) := by
        rw [hf]; ring
      simp only [List.map_cons, List.flatten_cons, harith]
      rw [List.getD_append_right _ _ _ _ (Nat.le_add_right _ _),
        Nat.add_sub_cancel_left, List.getD_cons_succ]
      exact ih j (by simpa using hj)

lemma example_rows_getD_lt (px : List ℚ) (k : ℕ) (hk : k < n_dt_example) :
    (example_rows px).getD k [] = spike_rates px := by
  rw [example_rows, List.getD_append _ _ _ _ (by simpa using hk),
    getD_replicate _ _ _ _ hk]

lemma example_rows_getD_ge (px : List ℚ) (k : ℕ) (hk1 : n_dt_example ≤ k)
    (hk2 : k < n_dt_total) :
    (example_rows px).getD k [] = px.map (fun _ => 0) := by
  rw [example_rows, List.getD_append_right _ _ _ _ (by simpa using hk1)]
  rw [List.length_replicate]
  exact getD_replicate _ _ _ _ (by rw [n_dt_total] at hk2; omega)

lemma spike_rates_getD (px : List ℚ) (i : ℕ) (hi : i < px.length) :
    (spike_rates px).getD i 0 = px.getD i 0 / 8 * input_intensity := by
  rw [spike_rates, List.getD_eq_getElem _ _ (by simpa using hi),
    List.getElem_map, List.getD_eq_getElem _ _ hi]

lemma zero_row_getD (px : List ℚ) (i : ℕ) :
    (px.map (fun _ => (0 : ℚ))).getD i 0 = 0 := by
  by_cases h : i < px.length
  · rw [List.getD_eq_getElem _ _ (by simpa using h), List.getElem_map]
  · rw [List.getD_eq_default _ _ (by simpa using Nat.le_of_not_lt h)]

lemma floor_bin (r : ℕ) (ε : ℚ) (h0 : 0 ≤ ε) (h1 : ε < input_dt) :
    ⌊((r : ℚ) * input_dt + ε) / input_dt⌋ = (r : ℤ) := by
  have hdt : (0 : ℚ) < input_dt := by norm_num [input_dt]
  have hdiv : ((r : ℚ) * input_dt + ε) / input_dt = r + ε / input_dt := by
    field_simp
  rw [hdiv, show ((r : ℚ)) = (((r : ℤ) : ℚ)) by push_cast; ring,
    Int.floor_int_add, Int.floor_eq_zero_iff.mpr
      ⟨div_nonneg h0 hdt.le, (div_lt_one hdt).mpr h1⟩, add_zero]

lemma ratMod_add_right (t T : ℚ) (hT : T ≠ 0) : ratMod (t + T) T = ratMod t T := by
  rw [ratMod, ratMod]
  have h1 : (t + T) / T = t / T + 1 := by field_simp
  rw [h1, Int.floor_add_one]
  push_cast
  ring

/-- C9: at any time inside bin `k` of example `j` (bins of 50 ms), the
stimulus rate of input neuron `i` is `pixel / 8 * input_intensity` during the
`n_dt_example = 7` presentation bins (0.35 s) and `0` during the
`n_dt_rest = 3` resting bins (0.15 s); the Poisson population reads the
array at `t % total_data_time`, so shifting time by one full dataset
duration replays the identical stream; and `input_intensity = 2`. -/
theorem C9_pixel_stimulus (pixels : List (List ℚ)) (j k i : ℕ) (ε : ℚ)
    (hj : j < pixels.length) (hi : i < (pixels.getD j []).length)
    (hε0 : 0 ≤ ε) (hε1 : ε < input_dt) :
    (k < n_dt_example →
      stimulus_X pixels (((j * n_dt_total + k : ℕ) : ℚ) * input_dt + ε) i
        = (pixels.getD j []).getD i 0 / 8 * input_intensity)
    ∧ (n_dt_example ≤ k → k < n_dt_total →
      stimulus_X pixels (((j * n_dt_total + k : ℕ) : ℚ) * input_dt + ε) i = 0)
    ∧ (0 < pixels.length → ∀ (t : ℚ) (n : ℕ),
      poisson_rates pixels (t + total_data_time pixels.length) n
        = poisson_rates pixels t n)
    ∧ n_dt_example = 7 ∧ n_dt_rest = 3 ∧ input_intensity = 2 := by
  have hrow : ∀ k' < n_dt_total,
      ((input_rates pixels).getD (⌊(((j * n_dt_total + k' : ℕ) : ℚ) * input_dt + ε)
          / input_dt⌋).toNat []) = (example_rows (pixels.getD j [])).getD k' [] := by
    intro k' hk'
    rw [floor_bin _ ε hε0 hε1, Int.toNat_natCast, input_rates,
      flatten_map_getD example_rows n_dt_total example_rows_length pixels j k' hj hk']
  refine ⟨?_, ?_, ?_, n_dt_example_eq, n_dt_rest_eq, rfl⟩
  · intro hk
    rw [stimulus_X, hrow k (lt_of_lt_of_le hk (Nat.le_add_right _ _)),
      example_rows_getD_lt _ _ hk, spike_rates_getD _ _ hi]
  · intro hk1 hk2
    rw [stimulus_X, hrow k hk2, example_rows_getD_ge _ _ hk1 hk2, zero_row_getD]
  · intro hpos t n
    have hT : total_data_time pixels.length ≠ 0 := by
      rw [total_data_time, n_dt_total_eq, input_dt]
      have h0 : (0 : ℚ) < pixels.length := by exact_mod_cast hpos
      positivity
    rw [poisson_rates, poisson_rates, ratMod_add_right t _ hT]

/-- Witness for C9 at a concrete input: one example with a single pixel of
value 8; in the first presentation bin the rate is `8 / 8 * 2`, and in the
first resting bin it is `0`. -/
theorem C9_pixel_stimulus_witness :
    stimulus_X [[(8 : ℚ)]] (((0 * n_dt_total + 0 : ℕ) : ℚ) * input_dt + 0) 0
      = ([[(8 : ℚ)]].getD 0 []).getD 0 0 / 8 * input_intensity
    ∧ stimulus_X [[(8 : ℚ)]] (((0 * n_dt_total + 7 : ℕ) : ℚ) * input_dt + 0) 0
      = 0 :=
  ⟨(C9_pixel_stimulus [[(8 : ℚ)]] 0 0 0 0 (by decide) (by decide) le_rfl
      (by norm_num [input_dt])).1 (by rw [n_dt_example_eq]; norm_num),
   (C9_pixel_stimulus [[(8 : ℚ)]] 0 7 0 0 (by decide) (by decide) le_rfl
      (by norm_num [input_dt])).2.1 (by rw [n_dt_example_eq])
      (by rw [n_dt_total_eq]; norm_num)⟩

/-- C10: in test mode the snapshot section runs only on the initial pass
(`nseen = 0`) — every later test-mode pass leaves the store tables and files
unchanged — while whenever train mode or `nseen = 0` holds, the pass appends
the connection rows, writes the weight plots, and (iff monitoring) the
monitor pickles. -/
theorem C10_test_mode_snapshots (test_mode monitoring : Bool) (nseen : ℕ)
    (save_conns plot_conns spike_monitors state_monitors : List String)
    (st : SnapshotState) :
    (test_mode = true → 0 < nseen →
      progress_snapshot test_mode monitoring nseen save_conns plot_conns
        spike_monitors state_monitors st = st)
    ∧ (test_mode = false ∨ nseen = 0 →
      (progress_snapshot test_mode monitoring nseen save_conns plot_conns
          spike_monitors state_monitors st).connRows
        = st.connRows ++ save_conns.map (fun c => ("connections/" ++ c, nseen))
      ∧ (progress_snapshot test_mode monitoring nseen save_conns plot_conns
          spike_monitors state_monitors st).files
        = st.files ++ plot_conns.map (fun c => "weights-" ++ c ++ ".pdf")
            ++ (if monitoring then
                  spike_monitors.map (fun m => "saved-spikemonitor-" ++ m ++ ".pickle")
                    ++ state_monitors.map (fun m => "saved-statemonitor-" ++ m ++ ".pickle")
                else [])) := by
  constructor
  · intro ht hn
    rw [progress_snapshot, if_neg]
    simp [ht, Nat.pos_iff_ne_zero.mp hn]
  · intro h
    have hcond : (!test_mode || nseen == 0) = true := by
      rcases h with h | h <;> simp [h]
    rw [progress_snapshot, if_pos hcond]
    cases monitoring <;> simp [List.append_assoc]

/-- Witness for C10 at a concrete input: a later test-mode pass
(`nseen = 50`) changes nothing; a train-mode pass appends the `XeAe` row and
plot. -/
theorem C10_test_mode_snapshots_witness :
    progress_snapshot true false 50 ["XeAe"] ["XeAe"] [] [] ⟨[], []⟩ = ⟨[], []⟩
    ∧ (progress_snapshot false false 50 ["XeAe"] ["XeAe"] [] [] ⟨[], []⟩).connRows
      = [] ++ ["XeAe"].map (fun c => ("connections/" ++ c, 50)) :=
  ⟨(C10_test_mode_snapshots true false 50 ["XeAe"] ["XeAe"] [] [] ⟨[], []⟩).1
      rfl (by norm_num),
   ((C10_test_mode_snapshots false false 50 ["XeAe"] ["XeAe"] [] [] ⟨[], []⟩).2
      (Or.inl rfl)).1⟩

end Brian2STDPMNIST
